import Mathlib

/-!
Verification of the constrained natural-language query gateway
(`app/api/routes/ask.py`): the `/ask` endpoint that turns a question into a
single SQL query via an external generation service, validates the candidate
text, executes it, and returns capped tabular results.

The Python handler is shallowly embedded below.  Strings are modelled by
Lean `String` (lists of characters); the regex `\b(INSERT|...)\b` with
`re.IGNORECASE` is modelled by an explicit word-boundary search on the ASCII
plane (the inputs of interest are ASCII SQL text); `str.strip`, `str.lstrip`,
`str.upper`, slicing and `dict(zip(...))` are modelled by the corresponding
character-list operations.  The external pieces — the Bedrock HTTP call and
the database session — are parameters of the orchestrator: the upstream
outcome is a value of type `Upstream` and the data store is a function from
query text to either an error message or a materialised result set.
-/

namespace Ask

/-- Python whitespace for `str.strip`/`str.lstrip` (ASCII plane). -/
def pyIsSpace (c : Char) : Bool :=
  c = ' ' || c = '\t' || c = '\n' || c = '\x0d' || c = '\x0c' || c = '\x0b'

/-- `str.lstrip()` on the character list. -/
def pyLstripL (l : List Char) : List Char := l.dropWhile pyIsSpace

/-- `str.rstrip()` on the character list. -/
def pyRstripL (l : List Char) : List Char := (l.reverse.dropWhile pyIsSpace).reverse

/-- `str.strip()` on the character list. -/
def pyStripL (l : List Char) : List Char := pyRstripL (pyLstripL l)

/-- `str.strip()`. -/
def pyStrip (s : String) : String := ⟨pyStripL s.data⟩

/-- `str.upper()` (ASCII plane). -/
def pyUpper (s : String) : String := ⟨s.data.map Char.toUpper⟩

/-- `s[:200]` — Python slice used on the upstream response text. -/
def pyTake200 (s : String) : String := ⟨s.data.take 200⟩

/-- A word character for the regex `\b` / `\w` classes (ASCII plane:
`[A-Za-z0-9_]`). -/
def isWordChar (c : Char) : Bool := c.isAlpha || c.isDigit || c = '_'

/-- Case-insensitive prefix test: does `kw` match the first `kw.length`
characters of `l` up to `Char.toUpper`? -/
def ciPrefix : List Char → List Char → Bool
  | [], _ => true
  | _ :: _, [] => false
  | k :: ks, c :: cs => (c.toUpper = k.toUpper) && ciPrefix ks cs

/-- Word boundary on the left of position `i`. -/
def boundaryBefore (l : List Char) (i : Nat) : Bool :=
  match (l.take i).reverse with
  | [] => true
  | c :: _ => !isWordChar c

/-- Word boundary on the right of position `j`. -/
def boundaryAfter (l : List Char) (j : Nat) : Bool :=
  match l.drop j with
  | [] => true
  | c :: _ => !isWordChar c

/-- `kw` occurs in `l` at position `i` as a whole word, case-insensitively:
the embedding of one alternative of `UNSAFE_PATTERN` matching at `i`. -/
def wordAt (l kw : List Char) (i : Nat) : Bool :=
  boundaryBefore l i && ciPrefix kw (l.drop i) && boundaryAfter l (i + kw.length)

/-- `kw` occurs somewhere in `l` as a whole word, case-insensitively. -/
def hasWord (l kw : List Char) : Bool :=
  (List.range (l.length + 1)).any (wordAt l kw)

/-- The denylist of `UNSAFE_PATTERN`
(`\b(INSERT|UPDATE|DELETE|DROP|ALTER|CREATE|REPLACE|TRUNCATE|GRANT|REVOKE)\b`,
`re.IGNORECASE`). -/
def keywords : List String :=
  ["INSERT", "UPDATE", "DELETE", "DROP", "ALTER",
   "CREATE", "REPLACE", "TRUNCATE", "GRANT", "REVOKE"]

/-- `UNSAFE_PATTERN.search(sql)` is truthy. -/
def unsafeSearch (s : String) : Bool :=
  keywords.any (fun kw => hasWord s.data kw.data)

/-- `sql.upper().lstrip().startswith("SELECT")`. -/
def selectShape (s : String) : Bool :=
  "SELECT".data.isPrefixOf (pyLstripL (pyUpper s).data)

/-- The `\n?` of the fence regexes: drop one leading newline when present. -/
def dropOneNewline (l : List Char) : List Char :=
  if l.head? = some '\n' then l.tail else l

/-- `re.sub(r'^```\w*\n?', '', s)`: anchored at the start, so a rewrite
happens exactly when the text starts with three backticks; the backticks, a
maximal run of word characters (greedy `\w*`) and one optional newline are
removed. -/
def stripLeadFence (s : String) : String :=
  if "```".data.isPrefixOf s.data then
    ⟨dropOneNewline ((s.data.drop 3).dropWhile isWordChar)⟩
  else s

/-- `re.sub(r'\n?```$', '', s)`: `$` anchors the match to the end of the
string or just before a final newline, so the rewrite removes a trailing
`` ``` `` (plus one newline before it, when present), keeping a final
newline that follows the backticks. -/
def stripTrailFence (s : String) : String :=
  if "```".data.isPrefixOf s.data.reverse then
    ⟨(dropOneNewline (s.data.reverse.drop 3)).reverse⟩
  else if ['\n', '`', '`', '`'].isPrefixOf s.data.reverse then
    ⟨('\n' :: dropOneNewline (s.data.reverse.drop 4)).reverse⟩
  else s

/-- The fence-stripping block of the handler:
`if sql.startswith("```"): sql = re.sub(...); sql = re.sub(...); sql = sql.strip()`. -/
def stripFences (s : String) : String :=
  if "```".data.isPrefixOf s.data then
    pyStrip (stripTrailFence (stripLeadFence s))
  else s

/-- Post-processing of the extracted generation text: the `.strip()` applied
at extraction followed by the fence-stripping block. -/
def postprocess (t : String) : String := stripFences (pyStrip t)

/-- The validator's verdict, in the order the handler applies its checks:
the denylist search first, then the SELECT-shape test. -/
inductive Verdict where
  | unsafeOp : Verdict
  | notSelect : Verdict
  | accept : Verdict
deriving DecidableEq, Repr

/-- The two validation checks of the handler, in source order. -/
def validateVerdict (sql : String) : Verdict :=
  if unsafeSearch sql then .unsafeOp
  else if !selectShape sql then .notSelect
  else .accept

/-- A Python `dict` as an insertion-ordered association list: inserting an
existing key updates its value in place, a new key is appended. -/
def dictInsert (acc : List (String × α)) (k : String) (v : α) : List (String × α) :=
  if acc.any (fun p => p.1 = k) then
    acc.map (fun p => if p.1 = k then (k, v) else p)
  else acc ++ [(k, v)]

/-- `dict(pairs)` for a list of key-value pairs. -/
def pyDict (pairs : List (String × α)) : List (String × α) :=
  pairs.foldl (fun a p => dictInsert a p.1 p.2) []

/-- `dict(zip(columns, row))`. -/
def pyDictZip (cols : List String) (row : List α) : List (String × α) :=
  pyDict (cols.zip row)

/-- The result-shaping and capping block of the handler:
`rows = [dict(zip(columns, row)) for row in result.fetchall()]`,
`if len(rows) > 200: rows = rows[:200]`, returning the rows and
`row_count = len(rows)`. -/
def executeShape (cols : List String) (fetched : List (List α)) :
    List (List (String × α)) × Nat :=
  let rows := fetched.map (pyDictZip cols)
  let rows := if rows.length > 200 then rows.take 200 else rows
  (rows, rows.length)

/-- Outcome of the Bedrock HTTP call: either `httpx.post` (or the import)
raises, or a response arrives with a status code, a body text (`resp.text`)
and the result of extracting `resp.json()["content"][0]["text"]` (an error
message when the body is malformed or the field is missing). -/
inductive Upstream where
  | unreachable (err : String) : Upstream
  | response (status : Nat) (body : String) (extract : Except String String) : Upstream

/-- The `try`/`except` block around the Bedrock call: on any failure the
handler raises `HTTPException(502, "LLM error: " + str(e))`; on success it
yields the extracted text. -/
def callLLM : Upstream → Except (Nat × String) String
  | .unreachable e => .error (502, "LLM error: " ++ e)
  | .response status body extract =>
    if status ≠ 200 then
      .error (502, "LLM error: Bedrock returned " ++ toString status ++ ": " ++ pyTake200 body)
    else
      match extract with
      | .error e => .error (502, "LLM error: " ++ e)
      | .ok t => .ok t

/-- The response of one `/ask` invocation: the success body
`{question, sql, results, row_count}` or an `HTTPException(status, detail)`. -/
inductive Response (α : Type) where
  | ok (question sql : String) (results : List (List (String × α))) (rowCount : Nat) : Response α
  | err (status : Nat) (detail : String) : Response α
deriving DecidableEq, Repr

/-- `if not BEDROCK_BEARER_TOKEN` — the token is a string defaulting to `""`,
so it is truthy exactly when non-empty. -/
def tokenTruthy (token : String) : Bool := token ≠ ""

/-- The `ask_question` handler: configuration check, generation call,
`.strip()` of the extracted text, fence stripping, denylist check,
SELECT-shape check, then execution with result shaping and the row cap.  The
data store is the parameter `db`, returning either the exception message or
the materialised `(columns, rows)`. -/
def ask (token : String) (u : Upstream)
    (db : String → Except String (List String × List (List α)))
    (question : String) : Response α :=
  if !tokenTruthy token then .err 503 "Bedrock API not configured"
  else
    match callLLM u with
    | .error (code, detail) => .err code detail
    | .ok t =>
      let sql := postprocess t
      if unsafeSearch sql then .err 400 ("Unsafe query rejected: " ++ sql)
      else if !selectShape sql then
        .err 400 ("Only SELECT queries allowed. Got: " ++ sql)
      else
        match db sql with
        | .error e => .err 400 ("Query execution error: " ++ e ++ "\nSQL: " ++ sql)
        | .ok (cols, fetched) =>
          let shaped := executeShape cols fetched
          .ok question sql shaped.1 shaped.2

/-- Replace the echoed `question` field of a response; used to state that the
handler applies no validation to the question itself. -/
def setQuestion (r : Response α) (q : String) : Response α :=
  match r with
  | .ok _ sql rows rc => .ok q sql rows rc
  | .err c d => .err c d

end Ask

namespace Ask

/-! ## Executor lemmas -/

theorem executeShape_count (cols : List String) (fetched : List (List α)) :
    (executeShape cols fetched).2 = (executeShape cols fetched).1.length ∧
      (executeShape cols fetched).2 ≤ 200 := by
  unfold executeShape
  by_cases h : (fetched.map (pyDictZip cols)).length > 200
  · simp only [if_pos h]
    exact ⟨by trivial, by simp [List.length_take]⟩
  · simp only [if_neg h]
    exact ⟨by trivial, Nat.le_of_not_lt h⟩

theorem foldl_dictInsert (pairs acc : List (String × α))
    (hd : ∀ p ∈ pairs, ∀ q ∈ acc, p.1 ≠ q.1)
    (hn : (pairs.map Prod.fst).Nodup) :
    pairs.foldl (fun a p => dictInsert a p.1 p.2) acc = acc ++ pairs := by
  induction pairs generalizing acc with
  | nil => simp
  | cons p ps ih =>
    have hnot : acc.any (fun q => q.1 = p.1) = false := by
      rw [List.any_eq_false]
      intro q hq
      simp only [decide_eq_true_eq]
      exact fun h => hd p (List.mem_cons_self p ps) q hq h.symm
    have hins : dictInsert acc p.1 p.2 = acc ++ [p] := by
      unfold dictInsert
      rw [hnot]
      simp
    simp only [List.foldl_cons, hins]
    rw [ih (acc ++ [p])]
    · simp
    · intro x hx q hq
      rcases List.mem_append.mp hq with hq | hq
      · exact hd x (List.mem_cons_of_mem p hx) q hq
      · have : q = p := by simpa using hq
        subst this
        have := (List.nodup_cons.mp hn).1
        intro hxy
        exact this (by
          have : x.1 ∈ ps.map Prod.fst := List.mem_map_of_mem Prod.fst hx
          rwa [hxy] at this)
    · exact (List.nodup_cons.mp hn).2

theorem map_fst_zip_sublist (l₁ : List String) (l₂ : List α) :
    ((l₁.zip l₂).map Prod.fst).Sublist l₁ := by
  induction l₁ generalizing l₂ with
  | nil => simp
  | cons a as ih =>
    cases l₂ with
    | nil => simp
    | cons b bs => simpa using List.Sublist.cons₂ a (ih bs)

theorem pyDictZip_eq_zip (cols : List String) (row : List α) (hn : cols.Nodup) :
    pyDictZip cols row = cols.zip row := by
  unfold pyDictZip pyDict
  have := foldl_dictInsert (cols.zip row) []
    (by intro p _ q hq; cases hq)
    ((map_fst_zip_sublist cols row).nodup hn)
  simpa using this


/-- C3: for every successful execution the returned body satisfies
`row_count = results.length` and `row_count ≤ 200`, whatever the data store
produced and whatever limiting clause the generated text did or did not
contain: the cap is applied by the result-shaping code itself. -/
theorem C3_row_count_cap {α} (token : String) (u : Upstream)
    (db : String → Except String (List String × List (List α)))
    (question q sql : String) (rows : List (List (String × α))) (rc : Nat)
    (h : ask token u db question = Response.ok q sql rows rc) :
    rc = rows.length ∧ rc ≤ 200 := by
  unfold ask at h
  by_cases ht : tokenTruthy token
  · simp only [ht, Bool.not_true, Bool.false_eq_true, if_false] at h
    cases hc : callLLM u with
    | error cd => rw [hc] at h; cases h
    | ok t =>
      rw [hc] at h
      by_cases hu : unsafeSearch (postprocess t)
      · simp only [hu, if_pos] at h; cases h
      · simp only [hu, Bool.false_eq_true, if_false] at h
        by_cases hs : selectShape (postprocess t)
        · simp only [hs, Bool.not_true, Bool.false_eq_true, if_false] at h
          cases hd : db (postprocess t) with
          | error e => rw [hd] at h; cases h
          | ok cf =>
            rw [hd] at h
            cases h
            exact ⟨(executeShape_count cf.1 cf.2).1,
              (executeShape_count cf.1 cf.2).2⟩
        · simp only [hs, Bool.not_false, if_true] at h; cases h
  · simp only [ht, Bool.not_false, if_true] at h; cases h

/-- C3 witness: a concrete successful invocation, instantiating the theorem. -/
theorem C3_row_count_cap_witness :
    (ask "tok" (Upstream.response 200 "" (Except.ok "SELECT 1"))
        (fun _ => Except.ok (["one"], [[1]])) "hi"
      = Response.ok "hi" "SELECT 1" [[("one", (1 : Nat))]] 1) ∧ (1 = 1 ∧ 1 ≤ 200) :=
  ⟨by decide, C3_row_count_cap "tok" (Upstream.response 200 "" (Except.ok "SELECT 1"))
    (fun _ => Except.ok (["one"], [[1]])) "hi" "hi" "SELECT 1" [[("one", (1 : Nat))]] 1
    (by decide)⟩

/-- C10: when the materialised result has more than 200 rows, the shaped
result is exactly the first 200 rows in engine order — a prefix of the full
shaped row list — each row the mapping of the result set's own column names,
in projection order, to the row's values, and `row_count` is the truncated
count 200. -/
theorem C10_truncation_is_prefix {α} (cols : List String) (fetched : List (List α))
    (hn : cols.Nodup) (hlen : 200 < fetched.length) :
    (executeShape cols fetched).1 = (fetched.take 200).map (fun r => cols.zip r)
      ∧ (executeShape cols fetched).2 = 200
      ∧ (executeShape cols fetched).1 <+: fetched.map (pyDictZip cols) := by
  have hmap : fetched.map (pyDictZip cols) = fetched.map (fun r => cols.zip r) :=
    List.map_congr_left (fun r _ => pyDictZip_eq_zip cols r hn)
  have hl : (fetched.map (pyDictZip cols)).length > 200 := by
    simpa using hlen
  have h1 : (executeShape cols fetched).1 = (fetched.map (pyDictZip cols)).take 200 := by
    unfold executeShape
    simp only [if_pos hl]
  refine ⟨?_, ?_, ?_⟩
  · rw [h1, hmap, ← List.map_take]
  · unfold executeShape
    simp only [if_pos hl]
    rw [List.length_take]
    omega
  · rw [h1]
    exact List.take_prefix 200 _

/-- C10 witness: a 201-row result set is cut to its first 200 rows. -/
theorem C10_truncation_is_prefix_witness :
    (executeShape ["a"] (List.replicate 201 [(0 : Nat)])).1
        = ((List.replicate 201 [(0 : Nat)]).take 200).map (fun r => ["a"].zip r)
      ∧ (executeShape ["a"] (List.replicate 201 [(0 : Nat)])).2 = 200
      ∧ (executeShape ["a"] (List.replicate 201 [(0 : Nat)])).1
          <+: (List.replicate 201 [(0 : Nat)]).map (pyDictZip ["a"]) :=
  C10_truncation_is_prefix ["a"] (List.replicate 201 [(0 : Nat)])
    (by decide) (by rw [List.length_replicate]; omega)

/-! ## Validator lemmas -/

/-- C2: any candidate containing a denylisted keyword as a whole word, in any
case, anywhere in the text, is rejected with HTTP 400 and a detail carrying
the candidate verbatim — whatever the rest of the text looks like, including
a keyword inside a quoted literal of an otherwise well-formed read query. -/
theorem C2_denylist_rejects {α} (token : String) (u : Upstream)
    (db : String → Except String (List String × List (List α)))
    (question t sql : String)
    (htok : tokenTruthy token = true) (hcall : callLLM u = Except.ok t)
    (hsql : postprocess t = sql)
    (hkw : ∃ kw ∈ keywords, hasWord sql.data kw.data = true) :
    ask token u db question = Response.err 400 ("Unsafe query rejected: " ++ sql)
      ∧ ∃ pre post, "Unsafe query rejected: " ++ sql = pre ++ sql ++ post := by
  have hu : unsafeSearch sql = true := by
    unfold unsafeSearch
    rw [List.any_eq_true]
    obtain ⟨kw, hmem, hw⟩ := hkw
    exact ⟨kw, hmem, hw⟩
  refine ⟨?_, "Unsafe query rejected: ", "", by simp⟩
  unfold ask
  rw [htok]
  simp only [Bool.not_true, Bool.false_eq_true, if_false]
  rw [hcall]
  simp only [hsql, hu, if_pos]

/-- C2 witness: a well-formed read query with the keyword only inside a
quoted string literal is still rejected, detail carrying it verbatim. -/
theorem C2_denylist_rejects_witness :
    ask "tok" (Upstream.response 200 "" (Except.ok "SELECT * FROM t WHERE name = 'drop'"))
        (fun _ => Except.ok (([] : List String), ([] : List (List Nat)))) "q"
      = Response.err 400 "Unsafe query rejected: SELECT * FROM t WHERE name = 'drop'"
      ∧ ∃ pre post, "Unsafe query rejected: SELECT * FROM t WHERE name = 'drop'"
          = pre ++ "SELECT * FROM t WHERE name = 'drop'" ++ post :=
  C2_denylist_rejects "tok" (Upstream.response 200 "" (Except.ok "SELECT * FROM t WHERE name = 'drop'"))
    (fun _ => Except.ok (([] : List String), ([] : List (List Nat)))) "q"
    "SELECT * FROM t WHERE name = 'drop'" "SELECT * FROM t WHERE name = 'drop'"
    (by decide) rfl (by decide)
    ⟨"DROP", by decide, by decide⟩

/-- C4 counterexample: `"drop table x"` does not begin with the read-query
keyword, yet its rejection reason is the denylist's (`UnsafeOperation`), not
`NotAReadQuery`: the handler checks the denylist first. -/
theorem C4_counterexample :
    selectShape "drop table x" = false
      ∧ validateVerdict "drop table x" = Verdict.unsafeOp
      ∧ validateVerdict "drop table x" ≠ Verdict.notSelect := by
  decide

/-- C4 (amended): the denylist rule is checked before the read-only-shape
rule; each is independently sufficient to reject — a candidate matching the
denylist is rejected as `UnsafeOperation`, and a candidate free of denylisted
keywords that does not begin with the read-query keyword is rejected as
`NotAReadQuery`. -/
theorem C4_rule_order (sql : String) :
    (unsafeSearch sql = true → validateVerdict sql = Verdict.unsafeOp)
      ∧ (unsafeSearch sql = false → selectShape sql = false →
          validateVerdict sql = Verdict.notSelect) := by
  constructor
  · intro h
    simp [validateVerdict, h]
  · intro h1 h2
    simp [validateVerdict, h1, h2]

/-- C4 witness: a keyword-free non-SELECT candidate gets `NotAReadQuery`. -/
theorem C4_rule_order_witness :
    validateVerdict "pragma table_info(lessons)" = Verdict.notSelect :=
  (C4_rule_order "pragma table_info(lessons)").2 (by decide) (by decide)

/-- C5 counterexample: `"selection * from x"`, whose first token merely
starts with the keyword's letters, passes the shape rule and the whole
validation, contradicting the claim that it is rejected as `NotAReadQuery`. -/
theorem C5_counterexample :
    selectShape "selection * from x" = true
      ∧ validateVerdict "selection * from x" = Verdict.accept := by
  decide

theorem dropWhile_append_all {p : Char → Bool} (a b : List Char)
    (h : ∀ c ∈ a, p c = true) :
    (a ++ b).dropWhile p = b.dropWhile p := by
  induction a with
  | nil => rfl
  | cons x xs ih =>
    have hx := h x (List.mem_cons_self x xs)
    simp only [List.cons_append, List.dropWhile_cons, hx, if_pos]
    exact ih (fun c hc => h c (List.mem_cons_of_mem x hc))

theorem toUpper_of_space (c : Char) (h : pyIsSpace c = true) :
    Char.toUpper c = c := by
  unfold pyIsSpace at h
  simp only [Bool.or_eq_true, decide_eq_true_eq] at h
  rcases h with ((((h | h) | h) | h) | h) | h <;> subst h <;> decide

theorem shape_of_select_start (ws sel rest : List Char)
    (hws : ∀ c ∈ ws, pyIsSpace c = true)
    (hsel : sel.map Char.toUpper = "SELECT".data) :
    selectShape ⟨ws ++ sel ++ rest⟩ = true := by
  show "SELECT".data.isPrefixOf
      (pyLstripL (((ws ++ sel ++ rest).map Char.toUpper))) = true
  rw [List.append_assoc, List.map_append]
  unfold pyLstripL
  rw [dropWhile_append_all (ws.map Char.toUpper) _ ?hall]
  case hall =>
    intro c hc
    obtain ⟨d, hd, rfl⟩ := List.mem_map.mp hc
    rw [toUpper_of_space d (hws d hd)]
    exact hws d hd
  rw [List.map_append, hsel]
  have hsd : "SELECT".data = 'S' :: "ELECT".data := rfl
  rw [hsd, List.cons_append, List.dropWhile_cons]
  have : pyIsSpace 'S' = false := by decide
  rw [this]
  simp only [Bool.false_eq_true, if_false]
  have hre : ('S' :: ("ELECT".data ++ rest.map Char.toUpper))
      = "SELECT".data ++ rest.map Char.toUpper := rfl
  rw [hre]
  exact List.isPrefixOf_iff_prefix.mpr (List.prefix_append _ _)

/-- C5 (amended): the shape rule is a case-insensitive prefix test, not a
first-token test: any text of optional leading whitespace followed by the
six letters of the read-query keyword (in any case) passes it — even when
the first token is longer, as in `"selection ..."` — while empty text is
rejected. -/
theorem C5_shape_is_a_prefix_test :
    (∀ ws sel rest : List Char, (∀ c ∈ ws, pyIsSpace c = true) →
        sel.map Char.toUpper = "SELECT".data →
        selectShape ⟨ws ++ sel ++ rest⟩ = true)
      ∧ selectShape "" = false := by
  exact ⟨shape_of_select_start, by decide⟩

/-- C5 witness: `" Select"` followed by `"ion * from x"` passes the shape
rule. -/
theorem C5_shape_is_a_prefix_test_witness :
    selectShape ⟨[' '] ++ ['S', 'e', 'l', 'e', 'c', 't'] ++ "ion * from x".data⟩ = true :=
  C5_shape_is_a_prefix_test.1 [' '] ['S', 'e', 'l', 'e', 'c', 't'] "ion * from x".data
    (by decide) (by decide)

theorem ciPrefix_mem_char (k : Char) :
    ∀ (kw l : List Char), ciPrefix kw l = true → k ∈ kw →
      ∃ c ∈ l, c.toUpper = k.toUpper := by
  intro kw
  induction kw with
  | nil => intro l _ hk; cases hk
  | cons a as ih =>
    intro l h hk
    cases l with
    | nil => simp [ciPrefix] at h
    | cons c cs =>
      simp only [ciPrefix, Bool.and_eq_true, decide_eq_true_eq] at h
      rcases List.mem_cons.mp hk with rfl | hk'
      · exact ⟨c, List.mem_cons_self c cs, h.1⟩
      · obtain ⟨d, hd, he⟩ := ih cs h.2 hk'
        exact ⟨d, List.mem_cons_of_mem c hd, he⟩

theorem hasWord_eq_false_of_missing_char (l kw : List Char) (k : Char)
    (hk : k ∈ kw) (hl : ∀ c ∈ l, c.toUpper ≠ k.toUpper) :
    hasWord l kw = false := by
  rw [hasWord, List.any_eq_false]
  intro i _
  intro hw
  have hci : ciPrefix kw (l.drop i) = true := by
    unfold wordAt at hw
    exact (Bool.and_eq_true .. ▸ hw).1 |> fun h => (Bool.and_eq_true .. ▸ h).2
  obtain ⟨c, hc, he⟩ := ciPrefix_mem_char k kw (l.drop i) hci hk
  exact hl c (List.mem_of_mem_drop hc) he

theorem selectBody_chars (n : Nat) (c : Char)
    (hc : c ∈ "SELECT".data ++ List.replicate n 'T') :
    c = 'S' ∨ c = 'E' ∨ c = 'L' ∨ c = 'C' ∨ c = 'T' := by
  rcases List.mem_append.mp hc with h | h
  · have : "SELECT".data = ['S', 'E', 'L', 'E', 'C', 'T'] := rfl
    rw [this] at h
    simp only [List.mem_cons, List.not_mem_nil, or_false] at h
    tauto
  · have := List.eq_of_mem_replicate h
    tauto

theorem no_size_bound (L : Nat) :
    ∃ sql : String, L < sql.length ∧ validateVerdict sql = Verdict.accept := by
  refine ⟨⟨"SELECT".data ++ List.replicate (L + 1) 'T'⟩, ?_, ?_⟩
  · show L < ("SELECT".data ++ List.replicate (L + 1) 'T').length
    rw [List.length_append, List.length_replicate]
    omega
  · have hchar : ∀ c ∈ "SELECT".data ++ List.replicate (L + 1) 'T',
        c.toUpper ≠ 'R' ∧ c.toUpper ≠ 'D' := by
      intro c hc
      rcases selectBody_chars (L + 1) c hc with rfl | rfl | rfl | rfl | rfl <;>
        exact ⟨by decide, by decide⟩
    have hu : unsafeSearch ⟨"SELECT".data ++ List.replicate (L + 1) 'T'⟩ = false := by
      unfold unsafeSearch
      rw [List.any_eq_false]
      intro kw hkw
      intro hword
      have hR : ('R' ∈ kw.data ∧ 'R'.toUpper = 'R') ∨ ('D' ∈ kw.data ∧ 'D'.toUpper = 'D') := by
        simp only [keywords, List.mem_cons, List.not_mem_nil, or_false] at hkw
        rcases hkw with rfl | rfl | rfl | rfl | rfl | rfl | rfl | rfl | rfl | rfl
        · exact Or.inl ⟨by decide, by decide⟩
        · exact Or.inr ⟨by decide, by decide⟩
        · exact Or.inr ⟨by decide, by decide⟩
        · exact Or.inl ⟨by decide, by decide⟩
        · exact Or.inl ⟨by decide, by decide⟩
        · exact Or.inl ⟨by decide, by decide⟩
        · exact Or.inl ⟨by decide, by decide⟩
        · exact Or.inl ⟨by decide, by decide⟩
        · exact Or.inl ⟨by decide, by decide⟩
        · exact Or.inl ⟨by decide, by decide⟩
      rcases hR with ⟨hmem, hup⟩ | ⟨hmem, hup⟩
      · have := hasWord_eq_false_of_missing_char
          ("SELECT".data ++ List.replicate (L + 1) 'T') kw.data 'R' hmem
          (fun c hc => by rw [hup]; exact (hchar c hc).1)
        rw [this] at hword
        cases hword
      · have := hasWord_eq_false_of_missing_char
          ("SELECT".data ++ List.replicate (L + 1) 'T') kw.data 'D' hmem
          (fun c hc => by rw [hup]; exact (hchar c hc).2)
        rw [this] at hword
        cases hword
    have hs : selectShape ⟨"SELECT".data ++ List.replicate (L + 1) 'T'⟩ = true := by
      have := shape_of_select_start [] "SELECT".data (List.replicate (L + 1) 'T')
        (by intro c hc; cases hc) (by decide)
      simpa using this
    unfold validateVerdict
    rw [hu, hs]
    rfl

/-- C6 counterexample: no fixed ceiling exists — for every bound there is a
longer candidate that the two validation checks accept, so no candidate is
ever rejected for size. -/
theorem C6_counterexample :
    ¬ ∃ L : Nat, ∀ sql : String, L < sql.length →
        validateVerdict sql ≠ Verdict.accept := by
  rintro ⟨L, hL⟩
  obtain ⟨sql, h1, h2⟩ := no_size_bound L
  exact hL sql h1 h2

/-- C6 (amended): the handler applies no size bound at all: for every
length `L` there is an accepted candidate longer than `L`; the only
validation rules are the denylist and the SELECT-shape test, and no
oversize rejection path exists. -/
theorem C6_no_size_ceiling (L : Nat) :
    ∃ sql : String, L < sql.length ∧ validateVerdict sql = Verdict.accept :=
  no_size_bound L

/-- C7 counterexample: the empty question is not rejected — with generation
configured it flows to the synthesizer and all the way to the data store,
producing a successful response; no `InputTooLarge` path exists. -/
theorem C7_counterexample :
    ask "tok" (Upstream.response 200 "" (Except.ok "SELECT 1"))
        (fun _ => Except.ok (["one"], [[(1 : Nat)]])) ""
      = Response.ok "" "SELECT 1" [[("one", (1 : Nat))]] 1 := by
  decide

/-- C7 (amended): the handler validates nothing about the question: the
response for any question equals the response for the empty question with
the echoed field replaced — no emptiness or length check guards the
synthesizer call. -/
theorem C7_question_never_validated {α} (token : String) (u : Upstream)
    (db : String → Except String (List String × List (List α)))
    (question : String) :
    ask token u db question = setQuestion (ask token u db "") question := by
  unfold ask setQuestion
  by_cases ht : tokenTruthy token = true
  · rw [ht]
    simp only [Bool.not_true, Bool.false_eq_true, if_false]
    cases hc : callLLM u with
    | error cd => rfl
    | ok t =>
      by_cases hu : unsafeSearch (postprocess t)
      · simp only [hu, if_pos]
      · simp only [hu, Bool.false_eq_true, if_false]
        by_cases hs : selectShape (postprocess t)
        · simp only [hs, Bool.not_true, Bool.false_eq_true, if_false]
          cases hd : db (postprocess t) with
          | error e => rfl
          | ok cf => rfl
        · simp only [hs, Bool.not_false, if_true]
  · rw [Bool.eq_false_iff.mpr ht]
    rfl

theorem callLLM_error_code (u : Upstream) (c : Nat) (d : String)
    (h : callLLM u = Except.error (c, d)) : c = 502 := by
  cases u with
  | unreachable e =>
    simp only [callLLM, Except.error.injEq, Prod.mk.injEq] at h
    exact h.1.symm
  | response status body extract =>
    simp only [callLLM] at h
    by_cases hs : status ≠ 200
    · rw [if_pos hs] at h
      simp only [Except.error.injEq, Prod.mk.injEq] at h
      exact h.1.symm
    · rw [if_neg hs] at h
      cases extract with
      | error e =>
        simp only [Except.error.injEq, Prod.mk.injEq] at h
        exact h.1.symm
      | ok t => cases h

/-- C1: whenever the configuration is missing, the generation call fails, or
the post-processed candidate fails validation, the invocation ends in a
classified error (503, 502 or 400) and the data-store call is never reached:
the response does not depend on the `db` parameter at all. -/
theorem C1_no_db_on_reject {α} (token : String) (u : Upstream) (question : String)
    (db db' : String → Except String (List String × List (List α)))
    (h : tokenTruthy token = false
        ∨ (∃ c d, callLLM u = Except.error (c, d))
        ∨ (∃ t, callLLM u = Except.ok t
            ∧ validateVerdict (postprocess t) ≠ Verdict.accept)) :
    (∃ c d, ask token u db question = Response.err c d
        ∧ (c = 503 ∨ c = 502 ∨ c = 400))
      ∧ ask token u db question = ask token u db' question := by
  by_cases ht : tokenTruthy token = true
  · rcases h with h | ⟨c, d, hc⟩ | ⟨t, hc, hv⟩
    · rw [h] at ht; cases ht
    · refine ⟨⟨c, d, ?_, Or.inr (Or.inl (callLLM_error_code u c d hc))⟩, ?_⟩ <;>
        · unfold ask
          rw [ht]
          simp only [Bool.not_true, Bool.false_eq_true, if_false]
          rw [hc]
    · unfold ask
      rw [ht]
      simp only [Bool.not_true, Bool.false_eq_true, if_false]
      rw [hc]
      by_cases hu : unsafeSearch (postprocess t)
      · simp only [hu, if_pos]
        exact ⟨⟨400, _, by trivial, Or.inr (Or.inr rfl)⟩, by trivial⟩
      · by_cases hs : selectShape (postprocess t)
        · exfalso
          apply hv
          unfold validateVerdict
          rw [Bool.eq_false_iff.mpr hu, hs]
          rfl
        · simp only [hu, Bool.false_eq_true, if_false,
            Bool.eq_false_iff.mpr hs, Bool.not_false, if_true]
          exact ⟨⟨400, _, by trivial, Or.inr (Or.inr rfl)⟩, by trivial⟩
  · have ht' : tokenTruthy token = false := Bool.eq_false_iff.mpr ht
    unfold ask
    rw [ht']
    simp only [Bool.not_false, if_true]
    exact ⟨⟨503, _, by trivial, Or.inl rfl⟩, by trivial⟩

/-- C1 witness: with no credential configured, the invocation ends in a 503
and is independent of the data store. -/
theorem C1_no_db_on_reject_witness :
    (∃ c d, ask "" (Upstream.response 200 "" (Except.ok "SELECT 1"))
          (fun _ => Except.ok (["one"], [[(1 : Nat)]])) "q" = Response.err c d
        ∧ (c = 503 ∨ c = 502 ∨ c = 400))
      ∧ ask "" (Upstream.response 200 "" (Except.ok "SELECT 1"))
          (fun _ => Except.ok (["one"], [[(1 : Nat)]])) "q"
        = ask "" (Upstream.response 200 "" (Except.ok "SELECT 1"))
          (fun _ => Except.error "db unreachable") "q" :=
  C1_no_db_on_reject "" (Upstream.response 200 "" (Except.ok "SELECT 1")) "q"
    (fun _ => Except.ok (["one"], [[(1 : Nat)]]))
    (fun _ => Except.error "db unreachable")
    (Or.inl (by decide))

/-- C8: with no credential the invocation is a 503 whose outcome is
independent of the upstream and the data store (no synthesizer call
attempted); with a credential, each generation failure mode — unreachable
service, non-success upstream status, malformed/missing response body —
yields a 502 whose detail carries the upstream error text, with the data
store never consulted. -/
theorem C8_generation_failures {α} (token : String) (u : Upstream) (question : String)
    (db db' : String → Except String (List String × List (List α))) :
    (tokenTruthy token = false → ∀ u',
        ask token u db question = Response.err 503 "Bedrock API not configured"
          ∧ ask token u db question = ask token u' db' question)
      ∧ (tokenTruthy token = true → ∀ e, u = Upstream.unreachable e →
          ask token u db question = Response.err 502 ("LLM error: " ++ e)
            ∧ ask token u db question = ask token u db' question)
      ∧ (tokenTruthy token = true → ∀ status body extract,
          u = Upstream.response status body extract → status ≠ 200 →
          ask token u db question
              = Response.err 502
                  ("LLM error: Bedrock returned " ++ toString status ++ ": " ++ pyTake200 body)
            ∧ ask token u db question = ask token u db' question)
      ∧ (tokenTruthy token = true → ∀ body extract e,
          u = Upstream.response 200 body extract → extract = Except.error e →
          ask token u db question = Response.err 502 ("LLM error: " ++ e)
            ∧ ask token u db question = ask token u db' question) := by
  refine ⟨?_, ?_, ?_, ?_⟩
  · intro ht u'
    unfold ask
    rw [ht]
    simp only [Bool.not_false, if_true]
    exact ⟨by trivial, by trivial⟩
  · intro ht e hu
    subst hu
    unfold ask
    rw [ht]
    simp only [Bool.not_true, Bool.false_eq_true, if_false, callLLM]
    exact ⟨by trivial, by trivial⟩
  · intro ht status body extract hu hst
    subst hu
    unfold ask
    rw [ht]
    simp only [Bool.not_true, Bool.false_eq_true, if_false, callLLM, if_pos hst]
    exact ⟨by trivial, by trivial⟩
  · intro ht body extract e hu hex
    subst hu
    subst hex
    unfold ask
    rw [ht]
    simp only [Bool.not_true, Bool.false_eq_true, if_false, callLLM]
    exact ⟨by trivial, by trivial⟩

/-- C8 witness: the 503 and the unreachable-502 cases at concrete inputs. -/
theorem C8_generation_failures_witness :
    (ask "" (Upstream.unreachable "x") (fun _ => Except.ok (["a"], [[(1 : Nat)]])) "q"
        = Response.err 503 "Bedrock API not configured"
      ∧ ask "" (Upstream.unreachable "x") (fun _ => Except.ok (["a"], [[(1 : Nat)]])) "q"
        = ask "" (Upstream.response 200 "" (Except.ok "SELECT 1"))
            (fun _ => Except.error "down") "q")
      ∧ (ask "tok" (Upstream.unreachable "connect timeout")
            (fun _ => Except.ok (["a"], [[(1 : Nat)]])) "q"
          = Response.err 502 "LLM error: connect timeout"
        ∧ ask "tok" (Upstream.unreachable "connect timeout")
            (fun _ => Except.ok (["a"], [[(1 : Nat)]])) "q"
          = ask "tok" (Upstream.unreachable "connect timeout")
            (fun _ => Except.error "down") "q") :=
  ⟨(C8_generation_failures "" (Upstream.unreachable "x") "q"
      (fun _ => Except.ok (["a"], [[(1 : Nat)]]))
      (fun _ => Except.error "down")).1 (by decide)
      (Upstream.response 200 "" (Except.ok "SELECT 1")),
    (C8_generation_failures "tok" (Upstream.unreachable "connect timeout") "q"
      (fun _ => Except.ok (["a"], [[(1 : Nat)]]))
      (fun _ => Except.error "down")).2.1 (by decide) "connect timeout" rfl⟩


/-! ## Fence-stripping lemmas -/

theorem pyLstripL_cons_of_nonspace (c : Char) (l : List Char)
    (h : pyIsSpace c = false) : pyLstripL (c :: l) = c :: l := by
  unfold pyLstripL
  rw [List.dropWhile_cons, h]
  simp

theorem pyRstripL_of_rev_head (l : List Char) (c : Char) (r : List Char)
    (hrev : l.reverse = c :: r) (hc : pyIsSpace c = false) :
    pyRstripL l = l := by
  unfold pyRstripL
  rw [hrev, List.dropWhile_cons, hc]
  simp only [Bool.false_eq_true, if_false]
  rw [← hrev, List.reverse_reverse]

theorem fence_roundtrip (tag q : String)
    (htag : ∀ c ∈ tag.data, isWordChar c = true)
    (hq : pyStrip q = q) :
    postprocess ("```" ++ tag ++ "\n" ++ q ++ "\n```") = q := by
  have hFdata : ("```" ++ tag ++ "\n" ++ q ++ "\n```").data
      = '`' :: '`' :: '`' :: (tag.data ++ '\n' :: (q.data ++ ['\n', '`', '`', '`'])) := by
    simp only [String.data_append]
    simp [List.append_assoc]
  have hFdata2 : ("```" ++ tag ++ "\n" ++ q ++ "\n```").data
      = ('`' :: '`' :: '`' :: (tag.data ++ '\n' :: q.data)) ++ ['\n', '`', '`', '`'] := by
    rw [hFdata]
    simp [List.append_assoc]
  have hFrev : ("```" ++ tag ++ "\n" ++ q ++ "\n```").data.reverse
      = '`' :: '`' :: '`' :: '\n'
          :: ('`' :: '`' :: '`' :: (tag.data ++ '\n' :: q.data)).reverse := by
    rw [hFdata2, List.reverse_append]
    rfl
  have hstrip : pyStrip ("```" ++ tag ++ "\n" ++ q ++ "\n```")
      = "```" ++ tag ++ "\n" ++ q ++ "\n```" := by
    show (⟨pyStripL ("```" ++ tag ++ "\n" ++ q ++ "\n```").data⟩ : String) = _
    unfold pyStripL
    have h1 : pyLstripL ("```" ++ tag ++ "\n" ++ q ++ "\n```").data
        = ("```" ++ tag ++ "\n" ++ q ++ "\n```").data := by
      rw [hFdata]
      exact pyLstripL_cons_of_nonspace '`' _ (by decide)
    rw [h1, pyRstripL_of_rev_head _ '`' _ hFrev (by decide)]
  have hlead : stripLeadFence ("```" ++ tag ++ "\n" ++ q ++ "\n```")
      = ⟨q.data ++ ['\n', '`', '`', '`']⟩ := by
    unfold stripLeadFence
    rw [if_pos ?hp]
    case hp =>
      rw [hFdata, show "```".data = ['`', '`', '`'] from rfl]
      exact List.isPrefixOf_iff_prefix.mpr ⟨_, rfl⟩
    have hdrop : ("```" ++ tag ++ "\n" ++ q ++ "\n```").data.drop 3
        = tag.data ++ '\n' :: (q.data ++ ['\n', '`', '`', '`']) := by
      rw [hFdata]
      rfl
    rw [hdrop, dropWhile_append_all tag.data _ htag, List.dropWhile_cons]
    have : isWordChar '\n' = false := by decide
    rw [this]
    simp only [Bool.false_eq_true, if_false, dropOneNewline, List.head?, List.tail]
    simp
  have htrail : stripTrailFence ⟨q.data ++ ['\n', '`', '`', '`']⟩ = q := by
    unfold stripTrailFence
    have hGrev : (⟨q.data ++ ['\n', '`', '`', '`']⟩ : String).data.reverse
        = '`' :: '`' :: '`' :: '\n' :: q.data.reverse := by
      show (q.data ++ ['\n', '`', '`', '`']).reverse = _
      rw [List.reverse_append]
      rfl
    rw [if_pos ?hp2]
    case hp2 =>
      rw [hGrev, show "```".data = ['`', '`', '`'] from rfl]
      exact List.isPrefixOf_iff_prefix.mpr ⟨_, rfl⟩
    have hdrop3 : (⟨q.data ++ ['\n', '`', '`', '`']⟩ : String).data.reverse.drop 3
        = '\n' :: q.data.reverse := by
      rw [hGrev]
      rfl
    rw [hdrop3]
    simp only [dropOneNewline, List.head?, List.tail]
    simp [List.reverse_reverse]
  show stripFences (pyStrip ("```" ++ tag ++ "\n" ++ q ++ "\n```")) = q
  rw [hstrip]
  unfold stripFences
  rw [if_pos ?hp3]
  case hp3 =>
    rw [hFdata, show "```".data = ['`', '`', '`'] from rfl]
    exact List.isPrefixOf_iff_prefix.mpr ⟨_, rfl⟩
  rw [hlead, htrail, hq]


theorem postprocess_of_no_fence (q : String) (hq : pyStrip q = q)
    (hpre : "```".data.isPrefixOf q.data = false) : postprocess q = q := by
  unfold postprocess
  rw [hq]
  unfold stripFences
  rw [hpre]
  simp

theorem ask_postprocess_congr {α} (token body question t₁ t₂ : String)
    (db : String → Except String (List String × List (List α)))
    (h : postprocess t₁ = postprocess t₂) :
    ask token (Upstream.response 200 body (Except.ok t₁)) db question
      = ask token (Upstream.response 200 body (Except.ok t₂)) db question := by
  have hc : ∀ t : String,
      callLLM (Upstream.response 200 body (Except.ok t)) = Except.ok t := by
    intro t
    simp [callLLM]
  unfold ask
  rw [hc t₁, hc t₂]
  by_cases ht : tokenTruthy token
  · rw [ht]
    simp only [Bool.not_true, Bool.false_eq_true, if_false, h]
  · rw [Bool.eq_false_iff.mpr ht]
    rfl

/-- C9: a synthesizer output that wraps a read query in triple-backtick
fences (optionally with a language tag) has the fences stripped, and the
invocation behaves exactly as if the inner query had been produced bare —
the post-processed candidate is the inner query, and the whole response
coincides for every token, body, question and data store. -/
theorem C9_fences_transparent {α} (tag q : String)
    (htag : ∀ c ∈ tag.data, isWordChar c = true)
    (hq : pyStrip q = q)
    (hpre : "```".data.isPrefixOf q.data = false) :
    postprocess ("```" ++ tag ++ "\n" ++ q ++ "\n```") = q
      ∧ ∀ (token body question : String)
          (db : String → Except String (List String × List (List α))),
          ask token (Upstream.response 200 body
              (Except.ok ("```" ++ tag ++ "\n" ++ q ++ "\n```"))) db question
            = ask token (Upstream.response 200 body (Except.ok q)) db question := by
  have h1 : postprocess ("```" ++ tag ++ "\n" ++ q ++ "\n```") = q :=
    fence_roundtrip tag q htag hq
  have h2 : postprocess q = q := postprocess_of_no_fence q hq hpre
  exact ⟨h1, fun token body question db =>
    ask_postprocess_congr token body question _ q db (h1.trans h2.symm)⟩

/-- C9 witness: `"```sql\nSELECT 1\n```"` behaves as the bare `"SELECT 1"`. -/
theorem C9_fences_transparent_witness :
    postprocess ("```" ++ "sql" ++ "\n" ++ "SELECT 1" ++ "\n```") = "SELECT 1"
      ∧ ask "tok" (Upstream.response 200 ""
            (Except.ok ("```" ++ "sql" ++ "\n" ++ "SELECT 1" ++ "\n```")))
          (fun _ => Except.ok (["one"], [[(1 : Nat)]])) "hi"
        = ask "tok" (Upstream.response 200 "" (Except.ok "SELECT 1"))
          (fun _ => Except.ok (["one"], [[(1 : Nat)]])) "hi" :=
  ⟨(C9_fences_transparent (α := Nat) "sql" "SELECT 1" (by decide) (by decide) (by decide)).1,
    (C9_fences_transparent "sql" "SELECT 1" (by decide) (by decide) (by decide)).2
      "tok" "" "hi" (fun _ => Except.ok (["one"], [[(1 : Nat)]]))⟩

end Ask
